import Mathlib

/-!
Shallow embedding of `src/bot.py` (Telegram AI therapist bot): the session
store, the history-bounding logic, and the four handlers
(`start_command`, `help_command`, `new_command`, `handle_message`).

Modelling notes, faithful to the Python source:

* `user_conversations` is a dict from chat id to a mutable list of turns; we
  model it as `Store := ChatId → Option History` and thread it explicitly.
* In `handle_message`, the local name `conversation_history` initially
  ALIASES the list held in the dict.  The `append` of the user turn at
  line 116 therefore mutates the stored list, while the truncation at
  lines 119-120 (`conversation_history = conversation_history[-MAX:]`)
  rebinds the local name to a fresh list and leaves the dict entry
  untruncated.  The dict entry is only overwritten again at line 154, which
  is skipped on the exception path.  The embedding reproduces exactly the
  committed dict states: after the user-turn append the dict holds the
  appended, untruncated list; on success it is overwritten with the
  truncated list holding the assistant turn.
* The OpenAI call plus the extraction `response["choices"][0]["message"]
  ["content"]` sit inside one `try`: any exception (transport error,
  timeout, empty `choices`, missing content) lands in the apology branch.
  We model the remote service as a function returning `Option RawResponse`
  (`none` = the call itself raised) and the extraction as a total function
  into `Option String` (`none` = the indexing raised).
* Python's slice `l[-n:]` is `sliceLast n l = l.drop (l.length - n)`.
-/

namespace Bot

/-- One chat message as sent to the OpenAI API: a `role`/`content` dict. -/
structure ConversationTurn where
  role : String
  content : String
deriving DecidableEq, Repr

/-- A per-user conversation history: the list value of `user_conversations`. -/
abbrev History := List ConversationTurn

/-- `chat_id` from the transport. -/
abbrev ChatId := Nat

/-- `MAX_CONTEXT_MESSAGES = 10` (line 55). -/
def MAX_CONTEXT_MESSAGES : Nat := 10

/-- Python slice `l[-n:]`: the last `min n l.length` elements. -/
def sliceLast (n : Nat) (l : History) : History :=
  l.drop (l.length - n)

/-- The in-memory `user_conversations` dict (line 52). -/
def Store : Type := ChatId → Option History

/-- `user_conversations[chat_id] = h`. -/
def Store.write (s : Store) (chat_id : ChatId) (h : History) : Store :=
  fun j => if j = chat_id then some h else s j

/-- The empty dict at process start. -/
def emptyStore : Store := fun _ => none

/-- A handler run: the dict after the run and the single text sent back. -/
structure MsgResult where
  store : Store
  sent : String

/-- The system prompt string built at lines 124-128. -/
def system_prompt : String :=
  "You are a supportive, empathetic AI therapist. You listen attentively and provide helpful, gentle, and understanding responses. You are not a medical professional, but you offer a comforting presence and coping strategies."

/-- The system turn prepended to the request (lines 130-132). -/
def systemTurn : ConversationTurn :=
  { role := "system", content := system_prompt }

/-- The fixed apology sent on any OpenAI failure (lines 144-147). -/
def apology_text : String :=
  "I\x27m sorry, but I\x27m having trouble connecting to my brain right now. Please try again later."

/-- The fixed `/start` greeting (lines 62-66). -/
def welcome_text : String :=
  "Hello! I\x27m your AI Therapist Bot. I am here to listen and offer supportive responses.\n\nYou can talk to me about anything on your mind, and I\x27ll do my best to help. If you need more detailed instructions, type /help."

/-- The fixed `/help` text (lines 79-85). -/
def help_text : String :=
  "Here are some commands you can use:\n\n/start - Welcome message.\n/help - This help message.\n/new - Reset your conversation context.\n\nOtherwise, just type your message, and I\x27ll reply!"

/-- The fixed `/new` confirmation (line 95). -/
def reset_text : String :=
  "Conversation context has been reset. Feel free to start anew!"

/-- One choice of the remote response; `none` content models a malformed
`choice` missing `message.content`. -/
structure Choice where
  message_content : Option String
deriving DecidableEq, Repr

/-- The remote service response body: its list of `choices`. -/
structure RawResponse where
  choices : List Choice
deriving DecidableEq, Repr

/-- `response["choices"][0]["message"]["content"]` (line 141); `none` when
the indexing would raise (empty `choices` or missing content). -/
def extractReply (r : RawResponse) : Option String :=
  match r.choices with
  | [] => none
  | c :: _ => c.message_content

/-- The payload of `openai.ChatCompletion.create` (lines 136-140). -/
structure CompletionRequest where
  model : String
  messages : List ConversationTurn
  temperature : ℚ
deriving DecidableEq

/-- `/start` (lines 58-72): reply with the greeting, then initialize the
conversation only if absent. -/
def start_command (s : Store) (chat_id : ChatId) : MsgResult :=
  { store :=
      match s chat_id with
      | none => s.write chat_id []
      | some _ => s
    sent := welcome_text }

/-- `/help` (lines 75-86): static text, no state interaction. -/
def help_command (s : Store) (chat_id : ChatId) : MsgResult :=
  { store := s, sent := help_text }

/-- `/new` (lines 89-95): unconditionally store an empty history. -/
def new_command (s : Store) (chat_id : ChatId) : MsgResult :=
  { store := s.write chat_id [], sent := reset_text }

/-- The dict entry right after line 116: the (lazily created) stored history
with the user turn appended in place. -/
def dictAfterAppend (s : Store) (chat_id : ChatId) (user_text : String) : History :=
  ((s chat_id).getD []) ++ [{ role := "user", content := user_text }]

/-- The local `conversation_history` after lines 118-120: truncated to the
last `MAX_CONTEXT_MESSAGES` entries when it exceeds the bound.  This is the
inline `append_and_bound` pattern; it rebinds the local name only. -/
def append_and_bound (h : History) (t : ConversationTurn) : History :=
  let l := h ++ [t]
  if l.length > MAX_CONTEXT_MESSAGES then sliceLast MAX_CONTEXT_MESSAGES l else l

/-- The value of the local `conversation_history` when the request is built. -/
def truncatedLocal (s : Store) (chat_id : ChatId) (user_text : String) : History :=
  append_and_bound ((s chat_id).getD []) { role := "user", content := user_text }

/-- The request sent at lines 136-140: the system turn prepended to the
(truncated local) history, fixed model, fixed temperature `0.7`. -/
def pipelineRequest (s : Store) (chat_id : ChatId) (user_text : String) : CompletionRequest :=
  { model := "gpt-3.5-turbo"
    messages := systemTurn :: truncatedLocal s chat_id user_text
    temperature := (7 : ℚ) / 10 }

/-- `handle_message` (lines 98-157), parametric in the remote service.
The dict states it commits are: the appended, untruncated list (line 116,
via aliasing), and — only on success — the truncated list with the
assistant turn (line 154).  On failure the handler returns after sending
the apology, leaving the line-116 state in the dict. -/
def handle_message (service : CompletionRequest → Option RawResponse)
    (s : Store) (chat_id : ChatId) (user_text : String) : MsgResult :=
  let s1 := s.write chat_id (dictAfterAppend s chat_id user_text)
  match (service (pipelineRequest s chat_id user_text)).bind extractReply with
  | none => { store := s1, sent := apology_text }
  | some ai_reply =>
      { store :=
          s1.write chat_id
            (sliceLast MAX_CONTEXT_MESSAGES
              (truncatedLocal s chat_id user_text ++
                [{ role := "assistant", content := ai_reply }]))
        sent := ai_reply }

/-- One inbound transport event, dispatched as in `main` (lines 173-176). -/
inductive Event where
  | start : ChatId → Event
  | help : ChatId → Event
  | new : ChatId → Event
  | text : ChatId → String → Event
deriving DecidableEq, Repr

/-- The conversation an event belongs to. -/
def Event.cid : Event → ChatId
  | .start i => i
  | .help i => i
  | .new i => i
  | .text i _ => i

/-- Dispatch one event to its handler. -/
def handle_event (service : CompletionRequest → Option RawResponse)
    (s : Store) : Event → MsgResult
  | .start i => start_command s i
  | .help i => help_command s i
  | .new i => new_command s i
  | .text i txt => handle_message service s i txt

/-- The dict after a sequence of handler invocations. -/
def runEvents (service : CompletionRequest → Option RawResponse)
    (s : Store) : List Event → Store
  | [] => s
  | e :: es => runEvents service (handle_event service s e).store es

/-- A stub remote service that always answers with reply `r`. -/
def okService (r : String) : CompletionRequest → Option RawResponse :=
  fun _ => some { choices := [{ message_content := some r }] }

/-- A stub remote service whose call always raises. -/
def failService : CompletionRequest → Option RawResponse :=
  fun _ => none

/-- A ten-turn stored history (oldest first: `m1` … `m10`). -/
def tenTurns : History :=
  [{ role := "user", content := "m1" }, { role := "assistant", content := "m2" },
   { role := "user", content := "m3" }, { role := "assistant", content := "m4" },
   { role := "user", content := "m5" }, { role := "assistant", content := "m6" },
   { role := "user", content := "m7" }, { role := "assistant", content := "m8" },
   { role := "user", content := "m9" }, { role := "assistant", content := "m10" }]

/-- A store holding `tenTurns` for chat `1` and nothing else. -/
def tenStore : Store :=
  fun j => if j = 1 then some tenTurns else none

/-- Every turn of a history is a user or assistant turn — i.e. the history
is free of system/persona turns. -/
def rolesOk (h : History) : Prop :=
  ∀ t ∈ h, t.role = "user" ∨ t.role = "assistant"

/-- Every history held in the dict is free of system/persona turns. -/
def GoodStore (s : Store) : Prop :=
  ∀ i h, s i = some h → rolesOk h

/-! ### Helper lemmas -/

lemma length_sliceLast_le (n : Nat) (l : History) : (sliceLast n l).length ≤ n := by
  simp only [sliceLast, List.length_drop]
  omega

lemma append_and_bound_eq_drop (h : History) (t : ConversationTurn) :
    append_and_bound h t = (h ++ [t]).drop (h.length + 1 - MAX_CONTEXT_MESSAGES) := by
  unfold append_and_bound sliceLast
  simp only [List.length_append, List.length_singleton]
  by_cases hc : h.length + 1 > MAX_CONTEXT_MESSAGES
  · rw [if_pos hc]
  · rw [if_neg hc]
    have h0 : h.length + 1 - MAX_CONTEXT_MESSAGES = 0 := by omega
    simp [h0]

lemma length_append_and_bound_le (h : History) (t : ConversationTurn) :
    (append_and_bound h t).length ≤ MAX_CONTEXT_MESSAGES := by
  rw [append_and_bound_eq_drop, List.length_drop]
  simp only [List.length_append, List.length_singleton, MAX_CONTEXT_MESSAGES]
  omega

lemma store_write_self (s : Store) (i : ChatId) (h : History) :
    s.write i h i = some h := by
  simp [Store.write]

lemma store_write_other (s : Store) (i j : ChatId) (h : History) (hij : j ≠ i) :
    s.write i h j = s j := by
  simp [Store.write, hij]

lemma start_command_store_none {s : Store} {i : ChatId} (hi : s i = none) :
    (start_command s i).store = s.write i [] := by
  unfold start_command
  rw [hi]

lemma start_command_store_some {s : Store} {i : ChatId} {h : History}
    (hi : s i = some h) : (start_command s i).store = s := by
  unfold start_command
  rw [hi]

lemma handle_message_eq_none (service : CompletionRequest → Option RawResponse)
    (s : Store) (i : ChatId) (txt : String)
    (hn : (service (pipelineRequest s i txt)).bind extractReply = none) :
    handle_message service s i txt =
      { store := s.write i (dictAfterAppend s i txt), sent := apology_text } := by
  unfold handle_message
  rw [hn]

lemma handle_message_eq_some (service : CompletionRequest → Option RawResponse)
    (s : Store) (i : ChatId) (txt : String) (r : String)
    (hr : (service (pipelineRequest s i txt)).bind extractReply = some r) :
    handle_message service s i txt =
      { store := (s.write i (dictAfterAppend s i txt)).write i
          (sliceLast MAX_CONTEXT_MESSAGES (truncatedLocal s i txt ++
            [{ role := "assistant", content := r }]))
        sent := r } := by
  unfold handle_message
  rw [hr]

lemma handle_message_store_none (service : CompletionRequest → Option RawResponse)
    (s : Store) (i : ChatId) (txt : String)
    (hn : (service (pipelineRequest s i txt)).bind extractReply = none) :
    (handle_message service s i txt).store = s.write i (dictAfterAppend s i txt) := by
  rw [handle_message_eq_none service s i txt hn]

lemma handle_message_sent_none (service : CompletionRequest → Option RawResponse)
    (s : Store) (i : ChatId) (txt : String)
    (hn : (service (pipelineRequest s i txt)).bind extractReply = none) :
    (handle_message service s i txt).sent = apology_text := by
  rw [handle_message_eq_none service s i txt hn]

lemma handle_message_store_some (service : CompletionRequest → Option RawResponse)
    (s : Store) (i : ChatId) (txt : String) (r : String)
    (hr : (service (pipelineRequest s i txt)).bind extractReply = some r) :
    (handle_message service s i txt).store =
      (s.write i (dictAfterAppend s i txt)).write i
        (sliceLast MAX_CONTEXT_MESSAGES (truncatedLocal s i txt ++
          [{ role := "assistant", content := r }])) := by
  rw [handle_message_eq_some service s i txt r hr]

lemma handle_message_sent_some (service : CompletionRequest → Option RawResponse)
    (s : Store) (i : ChatId) (txt : String) (r : String)
    (hr : (service (pipelineRequest s i txt)).bind extractReply = some r) :
    (handle_message service s i txt).sent = r := by
  rw [handle_message_eq_some service s i txt r hr]

lemma rolesOk_append {h1 h2 : History} (a : rolesOk h1) (b : rolesOk h2) :
    rolesOk (h1 ++ h2) := by
  intro t ht
  rcases List.mem_append.mp ht with hm | hm
  · exact a t hm
  · exact b t hm

lemma rolesOk_of_subset {h1 h2 : History} (hsub : h1 ⊆ h2) (b : rolesOk h2) :
    rolesOk h1 :=
  fun t ht => b t (hsub ht)

lemma rolesOk_user (c : String) :
    rolesOk [{ role := "user", content := c }] := by
  intro t ht
  rw [List.mem_singleton] at ht
  subst ht
  exact Or.inl rfl

lemma rolesOk_assistant (c : String) :
    rolesOk [{ role := "assistant", content := c }] := by
  intro t ht
  rw [List.mem_singleton] at ht
  subst ht
  exact Or.inr rfl

lemma rolesOk_getD {s : Store} (hs : GoodStore s) (i : ChatId) :
    rolesOk ((s i).getD []) := by
  cases hi : s i with
  | none =>
    intro t ht
    simp at ht
  | some h =>
    simpa using hs i h hi

lemma sliceLast_subset (n : Nat) (l : History) : sliceLast n l ⊆ l :=
  List.drop_subset _ _

lemma append_and_bound_subset (h : History) (t : ConversationTurn) :
    append_and_bound h t ⊆ h ++ [t] := by
  rw [append_and_bound_eq_drop]
  exact List.drop_subset _ _

lemma goodStore_write {s : Store} (hs : GoodStore s) {i : ChatId} {h : History}
    (hh : rolesOk h) : GoodStore (s.write i h) := by
  intro j g hj
  by_cases hij : j = i
  · subst hij
    rw [store_write_self] at hj
    injection hj with hj
    subst hj
    exact hh
  · rw [store_write_other _ _ _ _ hij] at hj
    exact hs j g hj

lemma goodStore_empty : GoodStore emptyStore := by
  intro i g hg
  simp [emptyStore] at hg

lemma goodStore_handle_event (service : CompletionRequest → Option RawResponse)
    {s : Store} (hs : GoodStore s) (e : Event) :
    GoodStore (handle_event service s e).store := by
  cases e with
  | start i =>
    show GoodStore (start_command s i).store
    cases hi : s i with
    | none =>
      rw [start_command_store_none hi]
      exact goodStore_write hs (fun t ht => absurd ht (List.not_mem_nil t))
    | some h =>
      rw [start_command_store_some hi]
      exact hs
  | help i => exact hs
  | new i =>
    exact goodStore_write hs (fun t ht => absurd ht (List.not_mem_nil t))
  | text i txt =>
    have hd : rolesOk (dictAfterAppend s i txt) :=
      rolesOk_append (rolesOk_getD hs i) (rolesOk_user txt)
    have hs1 : GoodStore (s.write i (dictAfterAppend s i txt)) :=
      goodStore_write hs hd
    show GoodStore (handle_message service s i txt).store
    cases hsv : (service (pipelineRequest s i txt)).bind extractReply with
    | none =>
      rw [handle_message_eq_none service s i txt hsv]
      exact hs1
    | some r =>
      rw [handle_message_eq_some service s i txt r hsv]
      refine goodStore_write hs1 (rolesOk_of_subset (sliceLast_subset _ _) ?_)
      refine rolesOk_append ?_ (rolesOk_assistant r)
      exact rolesOk_of_subset (append_and_bound_subset _ _) hd

lemma goodStore_runEvents (service : CompletionRequest → Option RawResponse)
    {s : Store} (hs : GoodStore s) (evs : List Event) :
    GoodStore (runEvents service s evs) := by
  induction evs generalizing s with
  | nil => exact hs
  | cons e es ih => exact ih (goodStore_handle_event service hs e)

/-! ### Claim theorems -/

/-- C4: `append_and_bound` returns the history with the turn appended and then
trimmed from the front to at most `MAX_CONTEXT_MESSAGES` entries; trimming
drops only the oldest entries (the result is a suffix of the appended list,
so surviving entries keep their relative order), the new turn is last, and
the operation is total. -/
theorem C4_append_and_bound_contract (h : History) (t : ConversationTurn) :
    append_and_bound h t = (h ++ [t]).drop (h.length + 1 - MAX_CONTEXT_MESSAGES) ∧
    (append_and_bound h t).length ≤ MAX_CONTEXT_MESSAGES ∧
    append_and_bound h t <:+ h ++ [t] ∧
    (append_and_bound h t).getLast? = some t := by
  refine ⟨append_and_bound_eq_drop h t, length_append_and_bound_le h t, ?_, ?_⟩
  · rw [append_and_bound_eq_drop]
    exact List.drop_suffix _ _
  · rw [append_and_bound_eq_drop]
    have hle : h.length + 1 - MAX_CONTEXT_MESSAGES ≤ h.length := by
      simp only [MAX_CONTEXT_MESSAGES]; omega
    rw [List.drop_append_of_le_length hle, List.getLast?_concat]

/-- C10: the append-then-truncate step is self-healing: for a stored history
of any length (even one already above the bound) and any new turn, the
truncation applied during the next text-message run yields a history of at
most `MAX_CONTEXT_MESSAGES` entries, with no precondition on the input; in
particular the history committed by a successful `handle_message` run is
always within the bound. -/
theorem C10_truncation_self_healing (h : History) (t : ConversationTurn)
    (s : Store) (chat_id : ChatId) (u r : String) :
    (append_and_bound h t).length ≤ MAX_CONTEXT_MESSAGES ∧
    ∃ h2, (handle_message (okService r) s chat_id u).store chat_id = some h2 ∧
      h2.length ≤ MAX_CONTEXT_MESSAGES := by
  refine ⟨length_append_and_bound_le h t, ?_⟩
  refine ⟨sliceLast MAX_CONTEXT_MESSAGES
      (truncatedLocal s chat_id u ++ [{ role := "assistant", content := r }]),
      ?_, length_sliceLast_le _ _⟩
  simp [handle_message, okService, extractReply, Store.write]

/-- C1: claimed: on completion failure the stored history is the pre-call
history plus the user turn, truncated to the bound, with no assistant turn.
The code commits the appended list WITHOUT truncation (the line-119
truncation only rebinds the local name; line 154 is skipped on failure):
from a ten-turn session, a failed call leaves 11 entries stored — the user
turn is persisted and no assistant turn is added, but the bound is not
applied. -/
theorem C1_failure_commit_not_truncated :
    (handle_message failService tenStore 1 "u11").store 1 =
      some (tenTurns ++ [({ role := "user", content := "u11" } : ConversationTurn)]) ∧
    (handle_message failService tenStore 1 "u11").sent = apology_text ∧
    (tenTurns ++ [({ role := "user", content := "u11" } : ConversationTurn)]).length = 11 ∧
    (handle_message failService tenStore 1 "u11").store 1 ≠
      some (append_and_bound tenTurns { role := "user", content := "u11" }) := by
  decide

/-- C2: claimed: stored history length is at most `MAX_CONTEXT_MESSAGES`
after every completed handler run, success or failure.  After a failed run
on a ten-turn session the stored history has 11 entries, exceeding the
bound. -/
theorem C2_bound_violated_after_failed_run :
    MAX_CONTEXT_MESSAGES <
      (((handle_message failService tenStore 1 "u11").store 1).getD []).length := by
  decide

/-- C3 counterexample: with ten stored turns `m1 … m10` and a successful
11th message, the first element of the committed history is `m3`, the
3rd-oldest original entry — not the 2nd-oldest (`m2`) as claimed. -/
theorem C3_first_element_not_second_oldest :
    (((handle_message (okService "r") tenStore 1 "u11").store 1).getD []).head? =
      some ({ role := "user", content := "m3" } : ConversationTurn) ∧
    tenTurns[1]? = some ({ role := "assistant", content := "m2" } : ConversationTurn) ∧
    (((handle_message (okService "r") tenStore 1 "u11").store 1).getD []).head? ≠
      some ({ role := "assistant", content := "m2" } : ConversationTurn) ∧
    (((handle_message (okService "r") tenStore 1 "u11").store 1).getD []).length = 10 := by
  decide

/-- C3 (amended): if a session holds exactly 10 turns and the 11th user
message is answered successfully, the committed history has length 10, its
first element is the 3rd-oldest original entry, and the oldest two original
entries are dropped across the two appends. -/
theorem C3_eleventh_message_amended (s : Store) (chat_id : ChatId) (ts : History)
    (u r : String) (hs : s chat_id = some ts) (hlen : ts.length = 10) :
    (handle_message (okService r) s chat_id u).store chat_id =
      some (ts.drop 2 ++ [({ role := "user", content := u } : ConversationTurn),
        ({ role := "assistant", content := r } : ConversationTurn)]) ∧
    (ts.drop 2 ++ [({ role := "user", content := u } : ConversationTurn),
      ({ role := "assistant", content := r } : ConversationTurn)]).length =
      MAX_CONTEXT_MESSAGES ∧
    (ts.drop 2 ++ [({ role := "user", content := u } : ConversationTurn),
      ({ role := "assistant", content := r } : ConversationTurn)]).head? = ts[2]? := by
  have htrunc : truncatedLocal s chat_id u =
      ts.drop 1 ++ [({ role := "user", content := u } : ConversationTurn)] := by
    rw [truncatedLocal, hs, Option.getD_some, append_and_bound_eq_drop, hlen]
    have h1 : 10 + 1 - MAX_CONTEXT_MESSAGES = 1 := rfl
    rw [h1, List.drop_append_of_le_length (by omega)]
  have hfin : sliceLast MAX_CONTEXT_MESSAGES
      ((ts.drop 1 ++ [({ role := "user", content := u } : ConversationTurn)]) ++
        [({ role := "assistant", content := r } : ConversationTurn)]) =
      ts.drop 2 ++ [({ role := "user", content := u } : ConversationTurn),
        ({ role := "assistant", content := r } : ConversationTurn)] := by
    rw [sliceLast, List.append_assoc]
    have hlen2 : (ts.drop 1 ++
        ([({ role := "user", content := u } : ConversationTurn)] ++
          [({ role := "assistant", content := r } : ConversationTurn)])).length = 11 := by
      simp [hlen]
    rw [hlen2]
    have h1 : 11 - MAX_CONTEXT_MESSAGES = 1 := rfl
    rw [h1, List.drop_append_of_le_length (by simp [hlen]), List.drop_drop]
    simp
  refine ⟨?_, ?_, ?_⟩
  · have hstore : (handle_message (okService r) s chat_id u).store chat_id =
        some (sliceLast MAX_CONTEXT_MESSAGES
          (truncatedLocal s chat_id u ++
            [({ role := "assistant", content := r } : ConversationTurn)])) := by
      simp [handle_message, okService, extractReply, Store.write]
    rw [hstore, htrunc, hfin]
  · simp only [List.length_append, List.length_drop, List.length_cons,
      List.length_nil, hlen]
    norm_num [MAX_CONTEXT_MESSAGES]
  · have hne : ts.drop 2 ≠ [] := by
      intro hnil
      have hl := congrArg List.length hnil
      simp [hlen] at hl
    rw [List.head?_append_of_ne_nil _ hne, List.head?_drop]

/-- C3 witness: the amended statement instantiated on the concrete ten-turn
store. -/
theorem C3_eleventh_message_witness :
    (handle_message (okService "r") tenStore 1 "u11").store 1 =
      some (tenTurns.drop 2 ++ [({ role := "user", content := "u11" } : ConversationTurn),
        ({ role := "assistant", content := "r" } : ConversationTurn)]) :=
  (C3_eleventh_message_amended tenStore 1 tenTurns "u11" "r" (by decide) (by decide)).1

/-- C8: `/new` replaces the stored history with an empty one (creating the
entry if absent), is idempotent, emits the fixed confirmation text, and on
any session — e.g. one holding 5 turns — leaves a stored history of
length 0. -/
theorem C8_reset_contract (s : Store) (chat_id : ChatId) :
    (new_command s chat_id).store chat_id = some [] ∧
    (new_command (new_command s chat_id).store chat_id).store chat_id = some [] ∧
    (new_command s chat_id).sent = reset_text ∧
    (((new_command s chat_id).store chat_id).getD []).length = 0 := by
  simp [new_command, Store.write]

/-- C5: every inbound text message produces exactly one outbound text: the
generated reply when the completion pipeline yields one, and the fixed
apology otherwise; an empty `choices` list or a choice with no content also
lands in the apology branch, and no failure escapes `handle_message`
(the handler is a total function). -/
theorem C5_exactly_one_outbound (service : CompletionRequest → Option RawResponse)
    (s : Store) (chat_id : ChatId) (u : String) :
    ((service (pipelineRequest s chat_id u)).bind extractReply = none →
      (handle_message service s chat_id u).sent = apology_text) ∧
    (∀ r, (service (pipelineRequest s chat_id u)).bind extractReply = some r →
      (handle_message service s chat_id u).sent = r) ∧
    extractReply { choices := [] } = none ∧
    (∀ cs, extractReply { choices := { message_content := none } :: cs } = none) := by
  refine ⟨fun hn => ?_, fun r hr => ?_, rfl, fun _ => rfl⟩
  · rw [handle_message_eq_none service s chat_id u hn]
  · rw [handle_message_eq_some service s chat_id u r hr]

/-- C5 witness: a raising service yields exactly the apology. -/
theorem C5_outbound_witness :
    (handle_message failService emptyStore 0 "hi").sent = apology_text :=
  (C5_exactly_one_outbound failService emptyStore 0 "hi").1 rfl

/-- C6: across any sequence of handler invocations from the empty store,
every turn readable from the session store has role `user` or `assistant`;
the persona/system turn is prepended only to the request payload, never
stored. -/
theorem C6_persona_never_stored (service : CompletionRequest → Option RawResponse)
    (evs : List Event) (chat_id : ChatId) (h : History) (t : ConversationTurn)
    (hrun : runEvents service emptyStore evs chat_id = some h) (ht : t ∈ h) :
    t.role = "user" ∨ t.role = "assistant" :=
  goodStore_runEvents service goodStore_empty evs chat_id h hrun t ht

/-- C6 witness: after one successful text message from a fresh store, the
stored assistant turn has a non-system role. -/
theorem C6_persona_witness :
    ConversationTurn.role { role := "assistant", content := "yo" } = "user" ∨
    ConversationTurn.role { role := "assistant", content := "yo" } = "assistant" :=
  C6_persona_never_stored (okService "yo") [Event.text 1 "hi"] 1
    [{ role := "user", content := "hi" }, { role := "assistant", content := "yo" }]
    { role := "assistant", content := "yo" } (by decide) (by decide)

/-- C7: the request payload is the persona turn followed by the current
(post-append, bounded) history in order, with the fixed model identifier
`gpt-3.5-turbo` and fixed temperature `0.7`; on success the reply sent is
the text content of the first choice of the remote response. -/
theorem C7_request_payload (s : Store) (chat_id : ChatId) (u : String) :
    (pipelineRequest s chat_id u).model = "gpt-3.5-turbo" ∧
    (pipelineRequest s chat_id u).temperature = 7 / 10 ∧
    (pipelineRequest s chat_id u).messages =
      systemTurn :: append_and_bound ((s chat_id).getD [])
        { role := "user", content := u } ∧
    (∀ resp c, resp.choices.head? = some c →
      extractReply resp = c.message_content) ∧
    (∀ service resp r, service (pipelineRequest s chat_id u) = some resp →
      extractReply resp = some r →
      (handle_message service s chat_id u).sent = r) := by
  refine ⟨rfl, rfl, rfl, ?_, ?_⟩
  · intro resp c hc
    rcases resp with ⟨choices⟩
    cases choices with
    | nil => simp at hc
    | cons c0 cs =>
      simp only [List.head?_cons, Option.some.injEq] at hc
      subst hc
      rfl
  · intro service resp r hresp hr
    have hbind : (service (pipelineRequest s chat_id u)).bind extractReply = some r := by
      rw [hresp]
      exact hr
    rw [handle_message_eq_some service s chat_id u r hbind]

/-- C7 witness: a one-choice stub response makes the handler send exactly
that choice's content. -/
theorem C7_request_witness :
    (handle_message (okService "ok") emptyStore 0 "hi").sent = "ok" :=
  (C7_request_payload emptyStore 0 "hi").2.2.2.2 (okService "ok")
    { choices := [{ message_content := some "ok" }] } "ok" rfl rfl

/-- C9: any handler invocation for conversation `e.cid` leaves the stored
history of every other conversation `b` unchanged, and its outcome (the
text sent and the committed history for `e.cid`) depends only on the stored
history of `e.cid`, never on another conversation's state. -/
theorem C9_session_isolation (service : CompletionRequest → Option RawResponse)
    (s s2 : Store) (e : Event) (b : ChatId)
    (hb : b ≠ e.cid) (hagree : s e.cid = s2 e.cid) :
    (handle_event service s e).store b = s b ∧
    (handle_event service s e).sent = (handle_event service s2 e).sent ∧
    (handle_event service s e).store e.cid = (handle_event service s2 e).store e.cid := by
  cases e with
  | start i =>
    simp only [Event.cid] at hb hagree
    refine ⟨?_, rfl, ?_⟩
    · show (start_command s i).store b = s b
      cases hi : s i with
      | none =>
        rw [start_command_store_none hi]
        exact store_write_other _ _ _ _ hb
      | some h =>
        rw [start_command_store_some hi]
    · show (start_command s i).store i = (start_command s2 i).store i
      cases hi : s i with
      | none =>
        rw [start_command_store_none hi,
          start_command_store_none (by rw [← hagree]; exact hi)]
        rw [store_write_self, store_write_self]
      | some h =>
        rw [start_command_store_some hi,
          start_command_store_some (show s2 i = some h by rw [← hagree]; exact hi)]
        rw [hi, ← hagree, hi]
  | help i =>
    simp only [Event.cid] at hb hagree
    exact ⟨rfl, rfl, hagree⟩
  | new i =>
    simp only [Event.cid] at hb hagree
    refine ⟨store_write_other _ _ _ _ hb, rfl, ?_⟩
    show (s.write i []) i = (s2.write i []) i
    rw [store_write_self, store_write_self]
  | text i txt =>
    simp only [Event.cid] at hb hagree
    have hreq : pipelineRequest s i txt = pipelineRequest s2 i txt := by
      unfold pipelineRequest truncatedLocal
      rw [hagree]
    have hd : dictAfterAppend s i txt = dictAfterAppend s2 i txt := by
      unfold dictAfterAppend
      rw [hagree]
    have htr : truncatedLocal s i txt = truncatedLocal s2 i txt := by
      unfold truncatedLocal
      rw [hagree]
    cases hsv : (service (pipelineRequest s i txt)).bind extractReply with
    | none =>
      have hsv2 : (service (pipelineRequest s2 i txt)).bind extractReply = none := by
        rw [← hreq]
        exact hsv
      refine ⟨?_, ?_, ?_⟩
      · show (handle_message service s i txt).store b = s b
        rw [handle_message_store_none service s i txt hsv]
        exact store_write_other _ _ _ _ hb
      · show (handle_message service s i txt).sent = (handle_message service s2 i txt).sent
        rw [handle_message_sent_none service s i txt hsv,
          handle_message_sent_none service s2 i txt hsv2]
      · show (handle_message service s i txt).store i = (handle_message service s2 i txt).store i
        rw [handle_message_store_none service s i txt hsv,
          handle_message_store_none service s2 i txt hsv2,
          store_write_self, store_write_self, hd]
    | some r =>
      have hsv2 : (service (pipelineRequest s2 i txt)).bind extractReply = some r := by
        rw [← hreq]
        exact hsv
      refine ⟨?_, ?_, ?_⟩
      · show (handle_message service s i txt).store b = s b
        rw [handle_message_store_some service s i txt r hsv,
          store_write_other _ _ _ _ hb, store_write_other _ _ _ _ hb]
      · show (handle_message service s i txt).sent = (handle_message service s2 i txt).sent
        rw [handle_message_sent_some service s i txt r hsv,
          handle_message_sent_some service s2 i txt r hsv2]
      · show (handle_message service s i txt).store i = (handle_message service s2 i txt).store i
        rw [handle_message_store_some service s i txt r hsv,
          handle_message_store_some service s2 i txt r hsv2,
          store_write_self, store_write_self, htr]

/-- C9 witness: a failing text message for conversation 1 leaves
conversation 2's stored history untouched. -/
theorem C9_isolation_witness :
    (handle_event failService tenStore (Event.text 1 "x")).store 2 = tenStore 2 ∧
    (handle_event failService tenStore (Event.text 1 "x")).sent =
      (handle_event failService tenStore (Event.text 1 "x")).sent ∧
    (handle_event failService tenStore (Event.text 1 "x")).store (Event.text 1 "x").cid =
      (handle_event failService tenStore (Event.text 1 "x")).store (Event.text 1 "x").cid :=
  C9_session_isolation failService tenStore tenStore (Event.text 1 "x") 2 (by decide) rfl

end Bot
